import Mathlib

/-!
Verification development for the buoy-tracking ingestion-and-forecast engine.

The Python sources are shallowly embedded:
* machine floats are idealised as `ℚ` (all claim-relevant arithmetic is exact
  at the inputs considered);
* `datetime` values are seconds since a fixed epoch (`ℤ` for the forecasters,
  `ℚ` for the parser, which can produce fractional seconds);
* fallible code returns `Except PyErr _`, where `PyErr` enumerates the Python
  exceptions the embedded code can actually raise;
* the floating-point trigonometry of `geo_tools.py` (`calc_distance`,
  `calc_bearing`, `update_position`) is not exactly representable, so those
  three primitives are parameters (`GeoTools`); every universally quantified
  theorem about the forecasters holds for every instance.
-/

/-- Python exceptions raised by the embedded code paths. -/
inductive PyErr where
  | valueError
  | unboundLocalError
  | zeroDivisionError
  | indexError
  | stopIteration
  | typeError
deriving DecidableEq, Repr

/-- Python's float modulo `x % m`: the remainder with the sign of the divisor,
`x - m * ⌊x / m⌋`. -/
def pymod (x m : ℚ) : ℚ := x - m * ⌊x / m⌋

/-- Embedding of `geo_tools.bearing_diff`:
`r = (b1 - b2) % 360.0; if r >= 180.0: r -= 360.0; return r`. -/
def bearing_diff (b1 b2 : ℚ) : ℚ :=
  let r := pymod (b1 - b2) 360
  if 180 ≤ r then r - 360 else r

/-- The floating-point trigonometric primitives of `geo_tools.py`
(haversine `calc_distance`, great-circle `calc_bearing`, dead-reckoning
`update_position`).  Their transcendental float values are not exactly
representable, so they are parameters of the embedding; theorems about the
forecasters quantify over every instance. -/
structure GeoTools where
  calc_distance : ℚ × ℚ → ℚ × ℚ → ℚ
  calc_bearing : ℚ × ℚ → ℚ × ℚ → ℚ
  update_position : ℚ → ℚ → ℚ → ℚ → ℚ × ℚ

/-! ## data_fetch.fetch_data_ftp

`retrlines` fills `data` with one entry per transferred line; the last entry
is the protocol's end-of-transfer marker.  The function then keeps
`data[-(num_lines+2):-1]` when `num_lines` is truthy, `data[:-1]` otherwise,
and joins with newlines. -/

/-- Python truthiness of the `num_lines` argument (`None` and `0` are falsy). -/
def truthy (n : Option ℕ) : Bool :=
  match n with
  | some k => k != 0
  | none => false

/-- Embedding of `data_fetch.fetch_data_ftp`, as a function of the list of
lines delivered by `retrlines` (network transport is outside the model).
Returns the list of retained lines; Python's clamping slice
`data[-(num_lines+2):-1]` is `(take (len-1)).drop (len-(num_lines+2))` with
truncated `ℕ` subtraction. -/
def fetch_data_ftp (data : List String) (num_lines : Option ℕ) : List String :=
  if truthy num_lines then
    (data.take (data.length - 1)).drop (data.length - (num_lines.getD 0 + 2))
  else
    data.take (data.length - 1)

/-- The raw-string payload produced by `fetch_data_ftp`:
`"\n".join(data) + "\n"`. -/
def fetch_data_ftp_raw (data : List String) (num_lines : Option ℕ) : String :=
  String.intercalate "\n" (fetch_data_ftp data num_lines) ++ "\n"

/-! ## forecast_position.simple_forecast

The forecaster consumes a drift track of `(timestamp, lat, lon)` tuples.
Timestamps are modelled at second resolution (`ℤ`); the float trigonometry is
a `GeoTools` parameter. -/

/-- A drift-track point: `(timestamp in seconds, latitude, longitude)`. -/
abbrev Pt := ℤ × ℚ × ℚ

/-- Result of `simple_forecast`: the full hourly list when
`full_forecast=True`, otherwise the single returned tuple. -/
inductive SimpleOut where
  | fullTrack (l : List Pt)
  | point (p : Pt)
deriving DecidableEq, Repr

/-- Python `np.average` over a list (unweighted mean).  On an empty list NumPy
produces `nan` with a warning, not an exception; the embedding returns the
junk value `0` there, which the embedded control flow never uses (the
2-point path raises `UnboundLocalError` first). -/
def pyavg (xs : List ℚ) : ℚ := xs.sum / xs.length

/-- One pass of the motion-record loop of `simple_forecast` at interior index
`i`: the instantaneous speed over segment `i → i+1` and the angular velocity
over the two segments meeting at `i`.  Python raises `ZeroDivisionError` on a
zero time delta (`float` division). -/
def motion_entry (G : GeoTools) (track : List Pt) (i : ℕ) : Except PyErr (ℚ × ℚ) :=
  let pos_next := track.getD (i + 1) default
  let pos_curr := track.getD i default
  let pos_last := track.getD (i - 1) default
  let distance := G.calc_distance pos_curr.2 pos_next.2
  let dt1 : ℤ := pos_next.1 - pos_curr.1
  if dt1 = 0 then .error .zeroDivisionError
  else
    let speed := distance / (dt1 : ℚ)
    let bearing_curr := G.calc_bearing pos_curr.2 pos_next.2
    let bearing_last := G.calc_bearing pos_last.2 pos_curr.2
    let dt2 : ℤ := pos_next.1 - pos_last.1
    if dt2 = 0 then .error .zeroDivisionError
    else .ok (speed, bearing_diff bearing_curr bearing_last / (dt2 : ℚ))

/-- The value `motion_entry` yields when neither time delta is zero. -/
def motion_entry_val (G : GeoTools) (track : List Pt) (i : ℕ) : ℚ × ℚ :=
  let pos_next := track.getD (i + 1) default
  let pos_curr := track.getD i default
  let pos_last := track.getD (i - 1) default
  (G.calc_distance pos_curr.2 pos_next.2 / ((pos_next.1 - pos_curr.1 : ℤ) : ℚ),
   bearing_diff (G.calc_bearing pos_curr.2 pos_next.2) (G.calc_bearing pos_last.2 pos_curr.2) /
     ((pos_next.1 - pos_last.1 : ℤ) : ℚ))

/-- The motion-record loop `for i in range(1, len(drift_track) - 1)`. -/
def motion_record (G : GeoTools) (track : List Pt) : Except PyErr (List (ℚ × ℚ)) :=
  (List.range (track.length - 2)).mapM (fun k => motion_entry G track (k + 1))

/-- `drift_track[-1][0]`: the time of the last observed point. -/
def last_time (track : List Pt) : ℤ := (track.getD (track.length - 1) default).1

/-- `(drift_track[-1][1], drift_track[-1][2])`: the last observed position. -/
def last_pos (track : List Pt) : ℚ × ℚ := (track.getD (track.length - 1) default).2

/-- The value of `bearing_curr` left over from the final motion-loop
iteration: the bearing of the final observed segment. -/
def last_bearing (G : GeoTools) (track : List Pt) : ℚ :=
  G.calc_bearing (track.getD (track.length - 2) default).2
    (track.getD (track.length - 1) default).2

/-- `num_steps = int(lead_time.total_seconds() / step_length)`: Python `int`
truncates toward zero, i.e. `Int.tdiv`. -/
def num_steps (target_time : ℤ) (track : List Pt) : ℤ :=
  Int.tdiv (target_time - last_time track) 900

/-- `int(num_steps / 4)`: the length of the pre-allocated hourly sample
list. -/
def hourly_len (target_time : ℤ) (track : List Pt) : ℤ :=
  Int.tdiv (num_steps target_time track) 4

/-- State of the forecast stepping loop. -/
structure LoopState where
  bearing : ℚ
  pos : ℚ × ℚ
  time : ℤ
  drift : List Pt
deriving DecidableEq, Repr

/-- Iteration `i` of the forecast loop: rotate the bearing by `w_per_step`,
apply the dead-reckoning displacement `d_per_step`, advance the clock by 15
minutes, and on every fourth iteration store the sample in slot `i / 4`
(`List.set`; the slot index is always in range for the list the source
allocates, so Python's in-place assignment never raises here). -/
def simple_step (G : GeoTools) (w_per_step d_per_step : ℚ) (s : LoopState) (i : ℕ) :
    LoopState :=
  let bearing := s.bearing + w_per_step
  let pos := G.update_position s.pos.1 s.pos.2 bearing d_per_step
  let time := s.time + 900
  { bearing := bearing, pos := pos, time := time,
    drift := if i % 4 = 3 then s.drift.set (i / 4) (time, pos.1, pos.2) else s.drift }

/-- The whole forecast loop `for i in range(num_steps)`. -/
def simple_loop (G : GeoTools) (w d : ℚ) (s : LoopState) (n : ℕ) : LoopState :=
  (List.range n).foldl (simple_step G w d) s

/-- Embedding of `forecast_position.simple_forecast`.  Control flow follows
the source: `np.zeros((len(drift_track) - 2, 2))` raises `ValueError`
(negative dimensions) for fewer than 2 points; the motion loop can raise
`ZeroDivisionError` on duplicate timestamps; `forecast_bearing = bearing_curr`
raises `UnboundLocalError` when the motion loop never ran (exactly 2 points);
and `forecast_drift[-1]` raises `IndexError` when the hourly list is empty. -/
def simple_forecast (G : GeoTools) (target_time : ℤ) (track : List Pt)
    (full_forecast : Bool) : Except PyErr SimpleOut :=
  if track.length < 2 then .error .valueError
  else
    match motion_record G track with
    | .error e => .error e
    | .ok record =>
      let step_length : ℚ := 900
      let n := num_steps target_time track
      let m := hourly_len target_time track
      let d_step := pyavg (record.map Prod.fst) * step_length
      let w_step := pyavg (record.map Prod.snd) * step_length
      if track.length < 3 then .error .unboundLocalError
      else
        let s0 : LoopState :=
          { bearing := last_bearing G track, pos := last_pos track,
            time := last_time track, drift := List.replicate m.toNat (0, 0, 0) }
        let sf := simple_loop G w_step d_step s0 n.toNat
        if full_forecast then .ok (.fullTrack sf.drift)
        else
          match sf.drift.getLast? with
          | none => .error .indexError
          | some p => .ok (.point p)

/-- The average per-step displacement `d_per_step` of a ≥3-point track. -/
def d_per_step (G : GeoTools) (track : List Pt) : ℚ :=
  pyavg (((List.range (track.length - 2)).map
    (fun k => motion_entry_val G track (k + 1))).map Prod.fst) * 900

/-- The average per-step rotation `w_per_step` of a ≥3-point track. -/
def w_per_step (G : GeoTools) (track : List Pt) : ℚ :=
  pyavg (((List.range (track.length - 2)).map
    (fun k => motion_entry_val G track (k + 1))).map Prod.snd) * 900

/-- The position after `j` loop iterations (the bearing used at iteration
`j` is `b0 + (j+1) * w`). -/
def posIter (G : GeoTools) (w d b0 : ℚ) (p0 : ℚ × ℚ) : ℕ → ℚ × ℚ
  | 0 => p0
  | j + 1 =>
    let p := posIter G w d b0 p0 j
    G.update_position p.1 p.2 (b0 + (j + 1 : ℕ) * w) d

/-- The hourly samples a successful `simple_forecast` run records: sample `k`
is taken after loop iteration `4k+3`, one hour of model time apart. -/
def hourly_samples (G : GeoTools) (target_time : ℤ) (track : List Pt) : List Pt :=
  (List.range (hourly_len target_time track).toNat).map (fun (k : ℕ) =>
    (last_time track + 3600 * ((k : ℤ) + 1),
     (posIter G (w_per_step G track) (d_per_step G track) (last_bearing G track)
       (last_pos track) (4 * (k + 1))).1,
     (posIter G (w_per_step G track) (d_per_step G track) (last_bearing G track)
       (last_pos track) (4 * (k + 1))).2))

/-- Strictly increasing timestamps (the spec's DriftTrack invariant). -/
abbrev StrictTimes (track : List Pt) : Prop :=
  List.Chain' (fun p q : Pt => p.1 < q.1) track

/-- A concrete `GeoTools` instance used in witnesses and counterexamples:
constant segment distance 900, constant bearing 0, and a dead-reckoning step
that moves latitude by the travelled distance. -/
def G0 : GeoTools where
  calc_distance := fun _ _ => 900
  calc_bearing := fun _ _ => 0
  update_position := fun lat lon _ distance => (lat + distance, lon)

deriving instance DecidableEq for Except

/-! ## forecast_position: the TOPAZ velocity-field cache and advanced forecast

The cache is the set of downloaded `.nc` files; each file name encodes its
covered `[start, end]` window.  The model represents the cache as the list of
those windows in glob order, a window as `(start, end)` in seconds, and the
inner `_advanced_forecast` (which reads external gridded data from the file)
as a parameter mapping the acquired window to its outcome. -/

/-- Embedding of `forecast_position.check_existing_topaz`: the needed window
must fall entirely inside the stored one. -/
def check_existing_topaz (topaz_start topaz_end date_start date_end : ℤ) : Bool :=
  decide (topaz_start ≤ date_start) && decide (topaz_end ≥ date_end)

/-- The file-scan loop of `advanced_forecast`: every file that is not valid
for the request (or every file, under `force_update`) is deleted; the last
valid file in iteration order is kept (`valid_file` is overwritten).  Returns
the kept window, if any, and the surviving cache.  Per the source, the check
is called with `date_start = buoy_position[0]` and `date_end = target_time`
(the bare target, no 4-hour buffer). -/
def scan_topaz (cache : List (ℤ × ℤ)) (date_start date_end : ℤ) (force_update : Bool) :
    Option (ℤ × ℤ) × List (ℤ × ℤ) :=
  cache.foldl
    (fun s w =>
      if check_existing_topaz w.1 w.2 date_start date_end && !force_update then
        (some w, s.2 ++ [w])
      else (s.1, s.2))
    (none, [])

/-- Embedding of `forecast_position.fetch_topaz_forecast`: the downloaded
window covers `[buoy time - 24h, (target + 4h) + 24h]` (the returned
`date_min`/`date_max`); the external download job is outside the model. -/
def fetch_topaz_forecast (buoy_time target_time : ℤ) : ℤ × ℤ :=
  (buoy_time - 24 * 3600, target_time + 4 * 3600 + 24 * 3600)

/-- The window-acquisition phase of `advanced_forecast` (the spec's
`VelocityFieldCache.acquire`): scan the cached files, reuse the last valid
one, otherwise download a new one.  Returns the window, the `topaz_update`
flag (true iff freshly downloaded), and the resulting cache. -/
def acquire (cache : List (ℤ × ℤ)) (buoy_time target_time : ℤ) (force_update : Bool) :
    (ℤ × ℤ) × Bool × List (ℤ × ℤ) :=
  match scan_topaz cache buoy_time target_time force_update with
  | (some w, kept) => (w, false, kept)
  | (none, kept) =>
    (fetch_topaz_forecast buoy_time target_time, true,
     kept ++ [fetch_topaz_forecast buoy_time target_time])

/-- Outcome of the inner `_advanced_forecast` on a given window: the velocity
at the selected cell/time is masked (the function logs a warning/error and
returns `[buoy_position]` — it does not raise), a `ValueError` (RK4
interpolation outside the trimmed grid), or a successful forecast. -/
inductive InnerOutcome where
  | ok (drift : List Pt)
  | masked
  | valueError
deriving DecidableEq, Repr

/-- Embedding of `forecast_position.advanced_forecast`.  `run_inner` models
`load_topaz_vars` + `_advanced_forecast` as a function of the acquired window
(the gridded file contents are external data).  The
`if retry and not topaz_update` recursion (with `force_update=True`,
`retry=False`) is unrolled once, which is exact: the recursive call's own
ValueError and masked branches all return `[buoy_position]`.  The second
component records the `force_update` flag of each acquisition attempt, in
order. -/
def advanced_forecast (run_inner : ℤ × ℤ → InnerOutcome) (cache : List (ℤ × ℤ))
    (buoy : Pt) (target_time : ℤ) (retry force_update : Bool) :
    List Pt × List Bool :=
  let a := acquire cache buoy.1 target_time force_update
  match run_inner a.1 with
  | .ok drift => (drift, [force_update])
  | .masked => ([buoy], [force_update])
  | .valueError =>
    if retry && !a.2.1 then
      let a2 := acquire a.2.2 buoy.1 target_time true
      let drift2 :=
        match run_inner a2.1 with
        | .ok drift => drift
        | .masked => [buoy]
        | .valueError => [buoy]
      (drift2, [force_update, true])
    else ([buoy], [force_update])

/-! ## forecast_position.rk4

The source builds trilinear `RegularGridInterpolator`s for u and v over the
trimmed `(t, x, y)` grids and then integrates with a while loop.  The
interpolants are parameters of the embedding (`u v : ℚ → ℚ → ℚ → ℚ`, total:
the out-of-bounds `ValueError` is modelled at the `advanced_forecast`
level). -/

/-- One iteration of the `while tn <= final_step` loop of
`forecast_position.rk4`, transcribed stage by stage.  Note the source's stage
sampling: when sampling the u interpolant, both the x *and* the y coordinate
are perturbed by u's own stage slope `k1[0]` (resp. `k2[0]`, `k3[0]`), and
when sampling v both coordinates are perturbed by `k1[1]` (etc.) — not x by
the u slope and y by the v slope as in the classical scheme. -/
def rk4_step (u v : ℚ → ℚ → ℚ → ℚ) (h : ℚ) (s : ℚ × ℚ × ℚ) : ℚ × ℚ × ℚ :=
  let tn := s.1
  let x := s.2.1
  let y := s.2.2
  let k1 : ℚ × ℚ := (u tn x y, v tn x y)
  let k2 : ℚ × ℚ := (u (tn + h / 2) (x + (h * k1.1) / 2) (y + (h * k1.1) / 2),
                     v (tn + h / 2) (x + (h * k1.2) / 2) (y + (h * k1.2) / 2))
  let k3 : ℚ × ℚ := (u (tn + h / 2) (x + (h * k2.1) / 2) (y + (h * k2.1) / 2),
                     v (tn + h / 2) (x + (h * k2.2) / 2) (y + (h * k2.2) / 2))
  let k4 : ℚ × ℚ := (u (tn + h) (x + h * k3.1) (y + h * k3.1),
                     v (tn + h) (x + h * k3.2) (y + h * k3.2))
  (tn + h,
   x + (1 / 6) * h * (k1.1 + 2 * k2.1 + 2 * k3.1 + k4.1),
   y + (1 / 6) * h * (k1.2 + 2 * k2.2 + 2 * k3.2 + k4.2))

/-- The iteration count of `while tn <= final_step` with step `h`: the body
runs for `tn = t0, t0 + h, …` as long as `tn ≤ final_step`, i.e.
`⌊(final_step - t0)/h⌋ + 1` times (for `h ≤ 0` the source loop would never
terminate; the solver is only ever called with `h = 0.5`). -/
def rk4_iters (t0 final_step h : ℚ) : ℕ :=
  if t0 ≤ final_step ∧ 0 < h then (⌊(final_step - t0) / h⌋ + 1).toNat else 0

/-- Embedding of `forecast_position.rk4`: iterate `rk4_step`, appending each
post-iteration `(tn, x, y)` when `full_forecast`, and otherwise returning the
single final `(tn, x, y)` (the unchanged initial point when the loop body
never runs). -/
def rk4 (u v : ℚ → ℚ → ℚ → ℚ) (t0 x0 y0 step_size final_step : ℚ)
    (full_forecast : Bool) : List (ℚ × ℚ × ℚ) :=
  let n := rk4_iters t0 final_step step_size
  let r := (List.range n).foldl
    (fun (s : (ℚ × ℚ × ℚ) × List (ℚ × ℚ × ℚ)) _ =>
      let s' := rk4_step u v step_size s.1
      (s', s.2 ++ [s']))
    ((t0, x0, y0), [])
  if full_forecast then r.2 else [r.1]

/-- Modelled from the spec: classical 4th-order Runge-Kutta stage sampling
for the 2-D system — at stages 2–4 the x coordinate is perturbed by the
u-component stage slope and the y coordinate by the v-component stage slope —
for comparison with the source's `rk4_step`. -/
def rk4_step_classical (u v : ℚ → ℚ → ℚ → ℚ) (h : ℚ) (s : ℚ × ℚ × ℚ) : ℚ × ℚ × ℚ :=
  let tn := s.1
  let x := s.2.1
  let y := s.2.2
  let k1 : ℚ × ℚ := (u tn x y, v tn x y)
  let k2 : ℚ × ℚ := (u (tn + h / 2) (x + (h * k1.1) / 2) (y + (h * k1.2) / 2),
                     v (tn + h / 2) (x + (h * k1.1) / 2) (y + (h * k1.2) / 2))
  let k3 : ℚ × ℚ := (u (tn + h / 2) (x + (h * k2.1) / 2) (y + (h * k2.2) / 2),
                     v (tn + h / 2) (x + (h * k2.1) / 2) (y + (h * k2.2) / 2))
  let k4 : ℚ × ℚ := (u (tn + h) (x + h * k3.1) (y + h * k3.2),
                     v (tn + h) (x + h * k3.1) (y + h * k3.2))
  (tn + h,
   x + (1 / 6) * h * (k1.1 + 2 * k2.1 + 2 * k3.1 + k4.1),
   y + (1 / 6) * h * (k1.2 + 2 * k2.2 + 2 * k3.2 + k4.2))

/-- Modelled from the spec: the solver of `rk4` with the classical stage
sampling substituted, all else equal. -/
def rk4_classical (u v : ℚ → ℚ → ℚ → ℚ) (t0 x0 y0 step_size final_step : ℚ)
    (full_forecast : Bool) : List (ℚ × ℚ × ℚ) :=
  let n := rk4_iters t0 final_step step_size
  let r := (List.range n).foldl
    (fun (s : (ℚ × ℚ × ℚ) × List (ℚ × ℚ × ℚ)) _ =>
      let s' := rk4_step_classical u v step_size s.1
      (s', s.2 ++ [s']))
    ((t0, x0, y0), [])
  if full_forecast then r.2 else [r.1]

/-! ## data_fetch.parse_data

Timestamps produced by the parser are `ℚ` seconds since the civil epoch
1970-01-01 (Python `datetime` values at microsecond resolution embed
exactly). -/

/-- The `date_format` tag of `parse_data` (`'xl'`, `'ddoy'`, anything else is
parsed as ISO). -/
inductive DateFormat where
  | xl
  | ddoy
  | iso
deriving DecidableEq, Repr

/-- Parse a nonempty run of decimal digits; `none` otherwise. -/
def parseDigits? (cs : List Char) : Option ℕ :=
  if cs.isEmpty then none
  else
    cs.foldl
      (fun acc c =>
        match acc with
        | none => none
        | some n => if c.isDigit then some (10 * n + (c.toNat - 48)) else none)
      (some 0)

/-- Model of Python `float(s)` restricted to plain decimal literals
`[±]digits[.digits]` (the forms occurring in buoy telemetry); everything else
raises `ValueError` (`none`). -/
def pyFloat? (s : String) : Option ℚ :=
  let cs := s.toList
  let signed : ℚ × List Char :=
    match cs with
    | '-' :: r => (-1, r)
    | '+' :: r => (1, r)
    | r => (1, r)
  match signed.2.splitOn '.' with
  | [ip] => (parseDigits? ip).map (fun n => signed.1 * n)
  | [ip, fp] =>
    match parseDigits? ip, parseDigits? fp with
    | some n, some f => some (signed.1 * ((n : ℚ) + (f : ℚ) / 10 ^ fp.length))
    | _, _ => none
  | _ => none

/-- Model of Python `int(s)` on `[±]digits`; `none` raises `ValueError`. -/
def pyInt? (s : String) : Option ℤ :=
  match s.toList with
  | '-' :: r => (parseDigits? r).map (fun n => -(n : ℤ))
  | '+' :: r => (parseDigits? r).map (fun n => (n : ℤ))
  | r => (parseDigits? r).map (fun n => (n : ℤ))

/-- Days from 1970-01-01 of the proleptic-Gregorian civil date `y-m-d`
(Hinnant's algorithm), used to embed `datetime` values. -/
def days_from_civil (y : ℤ) (m d : ℕ) : ℤ :=
  let y2 : ℤ := if m ≤ 2 then y - 1 else y
  let era : ℤ := Int.fdiv y2 400
  let yoe : ℤ := y2 - era * 400
  let mp : ℕ := (m + 9) % 12
  let doy : ℤ := ((153 * mp + 2) / 5 : ℕ) + (d : ℤ) - 1
  let doe : ℤ := yoe * 365 + Int.fdiv yoe 4 - Int.fdiv yoe 100 + doy
  era * 146097 + doe - 719468

/-- Embedding of `utils.xldate_to_datetime` as called by `parse_data`
(`tz="UTC"`, zero offset): 1899-12-30 plus `x` days, in seconds. -/
def xldate_to_datetime (x : ℚ) : ℚ :=
  (days_from_civil 1899 12 30 : ℚ) * 86400 + x * 86400

/-- Embedding of `utils.decimaldoy_to_datetime`: December 31 of `year - 1`
plus `x` days, in seconds. -/
def decimaldoy_to_datetime (x : ℚ) (year : ℤ) : ℚ :=
  (days_from_civil (year - 1) 12 31 : ℚ) * 86400 + x * 86400

/-- Read exactly `len` digits at offset `i`. -/
def fixedNat? (cs : List Char) (i len : ℕ) : Option ℕ :=
  let seg := (cs.drop i).take len
  if seg.length = len then parseDigits? seg else none

/-- Model of `datetime.fromisoformat` for the forms `YYYY-MM-DD` and
`YYYY-MM-DD{T, }HH:MM:SS`, as seconds since 1970-01-01; other strings raise
`ValueError` (`none`).  (Day-of-month validity is approximated by `≤ 31`;
none of the claims exercises that edge.) -/
def iso_parse? (s : String) : Option ℚ :=
  let cs := s.toList
  if cs.length = 10 ∨ (cs.length = 19 ∧ (cs.getD 10 ' ' = 'T' ∨ cs.getD 10 ' ' = ' ')) then
    match fixedNat? cs 0 4, cs.getD 4 ' ', fixedNat? cs 5 2, cs.getD 7 ' ', fixedNat? cs 8 2 with
    | some y, '-', some mo, '-', some da =>
      if 1 ≤ mo ∧ mo ≤ 12 ∧ 1 ≤ da ∧ da ≤ 31 then
        let date_secs : ℚ := (days_from_civil (y : ℤ) mo da : ℚ) * 86400
        if cs.length = 10 then some date_secs
        else
          match fixedNat? cs 11 2, cs.getD 13 ' ', fixedNat? cs 14 2, cs.getD 16 ' ',
              fixedNat? cs 17 2 with
          | some hh, ':', some mi, ':', some ss =>
            if hh ≤ 23 ∧ mi ≤ 59 ∧ ss ≤ 59 then
              some (date_secs + (hh : ℚ) * 3600 + (mi : ℚ) * 60 + (ss : ℚ))
            else none
          | _, _, _, _, _ => none
      else none
    | _, _, _, _, _ => none
  else none

/-- Split a character list at every separator (structurally recursive so that
concrete payloads evaluate; same semantics as `String.split`: separators are
dropped, empty pieces kept). -/
def splitChar (sep : Char → Bool) : List Char → List (List Char)
  | [] => [[]]
  | c :: cs =>
    let r := splitChar sep cs
    if sep c then [] :: r
    else (c :: r.headD []) :: r.tail

/-- Python `line.split(deliminator)`: `None` splits on whitespace runs and
drops empty fields; an explicit delimiter keeps empty fields. -/
def pysplit (line : String) (deliminator : Option Char) : List String :=
  match deliminator with
  | none => ((splitChar Char.isWhitespace line.toList).map String.mk).filter (fun t => t ≠ "")
  | some c => (splitChar (fun ch => ch = c) line.toList).map String.mk

/-- Python `text.splitlines()` for LF-separated payloads (the payloads this
program builds join their lines with `"\n"`). -/
def splitlines (text : String) : List String :=
  if text.toList.isEmpty then []
  else
    let parts := (splitChar (fun ch => ch = '\n') text.toList).map String.mk
    if text.toList.getLast? = some '\n' then parts.dropLast else parts

/-- Python list indexing `data[col]`, raising `IndexError` when out of
range. -/
def pyitem (data : List String) (col : ℕ) : Except PyErr String :=
  match data[col]? with
  | some s => .ok s
  | none => .error .indexError

/-- `float(data[col])`: `IndexError` when the column is missing, then
`ValueError` when the field is not a numeric literal. -/
def pyfloat_at (data : List String) (col : ℕ) : Except PyErr ℚ :=
  match pyitem data col with
  | .error e => .error e
  | .ok s =>
    match pyFloat? s with
    | some q => .ok q
    | none => .error .valueError

/-- The timestamp decoding of one `parse_data` line (`float`/`int`
conversion failures raise `ValueError`; `data[None]` — a `ddoy` format with
no year column — raises `TypeError`). -/
def parse_time (data : List String) (t_col : ℕ) (date_format : DateFormat)
    (y_col : Option ℕ) : Except PyErr ℚ :=
  match date_format with
  | .xl =>
    match pyfloat_at data t_col with
    | .error e => .error e
    | .ok x => .ok (xldate_to_datetime x)
  | .ddoy =>
    match pyfloat_at data t_col with
    | .error e => .error e
    | .ok x =>
      match y_col with
      | none => .error .typeError
      | some yc =>
        match pyitem data yc with
        | .error e => .error e
        | .ok s =>
          match pyInt? s with
          | some y => .ok (decimaldoy_to_datetime x y)
          | none => .error .valueError
  | .iso =>
    match pyitem data t_col with
    | .error e => .error e
    | .ok s =>
      match iso_parse? s with
      | some t => .ok t
      | none => .error .valueError

/-- One iteration of the parsing loop: split the line, skip it (`ok none`)
when it has fewer than 3 fields, otherwise decode timestamp, latitude and
longitude in source order (each decode can raise). -/
def parse_line (t_col lat_col lon_col : ℕ) (date_format : DateFormat)
    (deliminator : Option Char) (y_col : Option ℕ) (line : String) :
    Except PyErr (Option (ℚ × ℚ × ℚ)) :=
  let data := pysplit line deliminator
  if data.length < 3 then .ok none
  else
    match parse_time data t_col date_format y_col with
    | .error e => .error e
    | .ok t =>
      match pyfloat_at data lat_col with
      | .error e => .error e
      | .ok lat =>
        match pyfloat_at data lon_col with
        | .error e => .error e
        | .ok lon => .ok (some (t, lat, lon))

/-- The `for line in lines` loop of `parse_data`, with the `t != t_previous`
deduplication (repeated position updates are skipped). -/
def parse_loop (t_col lat_col lon_col : ℕ) (date_format : DateFormat)
    (deliminator : Option Char) (y_col : Option ℕ) :
    List String → Option ℚ → List (ℚ × ℚ × ℚ) → Except PyErr (List (ℚ × ℚ × ℚ))
  | [], _, acc => .ok acc
  | line :: rest, t_prev, acc =>
    match parse_line t_col lat_col lon_col date_format deliminator y_col line with
    | .error e => .error e
    | .ok none => parse_loop t_col lat_col lon_col date_format deliminator y_col rest t_prev acc
    | .ok (some (t, lat, lon)) =>
      if some t ≠ t_prev then
        parse_loop t_col lat_col lon_col date_format deliminator y_col rest (some t)
          (acc ++ [(t, lat, lon)])
      else
        parse_loop t_col lat_col lon_col date_format deliminator y_col rest t_prev acc

/-- Embedding of `data_fetch.parse_data`.  `next(lines)` raises
`StopIteration` when the payload has no lines at all (the empty string);
otherwise the first (possibly truncated) line is skipped unconditionally and
the remaining lines are parsed; the accepted rows are reversed when
`reverse`. -/
def parse_data (text : String) (t_col lat_col lon_col : ℕ) (date_format : DateFormat)
    (deliminator : Option Char) (reverse : Bool) (y_col : Option ℕ) :
    Except PyErr (List (ℚ × ℚ × ℚ)) :=
  match splitlines text with
  | [] => .error .stopIteration
  | _ :: rest =>
    match parse_loop t_col lat_col lon_col date_format deliminator y_col rest none [] with
    | .error e => .error e
    | .ok track => .ok (if reverse then track.reverse else track)


/-! # Theorems -/

/-! ## Basic facts about `bearing_diff` (claim C9) -/

theorem pymod_nonneg (x : ℚ) : 0 ≤ pymod x 360 := by
  have h := Int.sub_floor_div_mul_nonneg x (by norm_num : (0:ℚ) < 360)
  simp only [pymod]
  linarith

theorem pymod_lt (x : ℚ) : pymod x 360 < 360 := by
  have h := Int.sub_floor_div_mul_lt x (by norm_num : (0:ℚ) < 360)
  simp only [pymod]
  linarith

/-- C9 (counterexample): `bearing_diff 180 0 = -180`, which does not lie in the
claimed half-open range `(-180, 180]`. -/
theorem C9_counterexample :
    bearing_diff 180 0 = -180 ∧ ¬ (-180 : ℚ) < bearing_diff 180 0 := by
  constructor
  · norm_num [bearing_diff, pymod]
  · norm_num [bearing_diff, pymod]

/-- C9 (amended): `bearing_diff b1 b2` is a representative of `b1 - b2`
modulo 360 lying in the half-open range `[-180, 180)` (not `(-180, 180]`),
and `bearing_diff b b = 0` for every `b`. -/
theorem C9_theorem (b1 b2 b : ℚ) :
    (-180 ≤ bearing_diff b1 b2 ∧ bearing_diff b1 b2 < 180) ∧
      (∃ k : ℤ, bearing_diff b1 b2 = b1 - b2 - 360 * k) ∧
      bearing_diff b b = 0 := by
  have h0 := pymod_nonneg (b1 - b2)
  have h1 := pymod_lt (b1 - b2)
  have hbb : bearing_diff b b = 0 := by norm_num [bearing_diff, pymod]
  by_cases h : 180 ≤ pymod (b1 - b2) 360
  · have hval : bearing_diff b1 b2 = pymod (b1 - b2) 360 - 360 := by
      simp only [bearing_diff]
      rw [if_pos h]
    refine ⟨⟨by rw [hval]; linarith, by rw [hval]; linarith⟩,
      ⟨⌊(b1 - b2) / 360⌋ + 1, ?_⟩, hbb⟩
    rw [hval]
    simp only [pymod]
    try push_cast
    try ring
  · have hval : bearing_diff b1 b2 = pymod (b1 - b2) 360 := by
      simp only [bearing_diff]
      rw [if_neg h]
    refine ⟨⟨by rw [hval]; linarith, by rw [hval]; linarith⟩,
      ⟨⌊(b1 - b2) / 360⌋, ?_⟩, hbb⟩
    rw [hval]
    simp only [pymod]
    try push_cast
    try ring

/-! ## FTP slice behaviour (claim C1) -/

/-- C1 (counterexample): an FTP payload whose content lines are `L1..L8`
(`N = 8`) followed by the end-of-transfer marker, fetched with
`count_hint = 5`, yields the 6 lines `L3..L8` — not 7 lines, lines `N-6..N-1`
(`L2..L7`): line `N` itself is retained and `L2` is not. -/
theorem C1_counterexample :
    fetch_data_ftp ["L1", "L2", "L3", "L4", "L5", "L6", "L7", "L8", "EOF"] (some 5) =
        ["L3", "L4", "L5", "L6", "L7", "L8"] ∧
      (fetch_data_ftp ["L1", "L2", "L3", "L4", "L5", "L6", "L7", "L8", "EOF"]
          (some 5)).length ≠ 7 ∧
      "L8" ∈ fetch_data_ftp ["L1", "L2", "L3", "L4", "L5", "L6", "L7", "L8", "EOF"] (some 5) ∧
      "L2" ∉ fetch_data_ftp ["L1", "L2", "L3", "L4", "L5", "L6", "L7", "L8", "EOF"] (some 5) := by
  refine ⟨by rfl, by decide, by decide, by decide⟩

/-- C1 (amended): for a payload of content lines `pre` followed by the
end-of-transfer marker, a fetch with nonzero `count_hint = n` retains exactly
the last `min (n+1) pre.length` content lines (the marker excluded); in
particular, when at least `n+1` content lines exist, exactly the `n+1` lines
`N-n .. N` are kept (for `count_hint = 5`: the 6 lines `N-5 .. N`). -/
theorem C1_theorem (pre : List String) (marker : String) (n : ℕ) (hn : n ≠ 0) :
    fetch_data_ftp (pre ++ [marker]) (some n) = pre.drop (pre.length - (n + 1)) ∧
      (fetch_data_ftp (pre ++ [marker]) (some n)).length = min (n + 1) pre.length := by
  have htr : truthy (some n) = true := by
    simp [truthy, hn]
  have hmain : fetch_data_ftp (pre ++ [marker]) (some n) = pre.drop (pre.length - (n + 1)) := by
    unfold fetch_data_ftp
    rw [htr]
    simp only [if_true, Option.getD_some, List.length_append, List.length_singleton]
    have h1 : pre.length + 1 - 1 = pre.length := by omega
    have h2 : pre.length + 1 - (n + 2) = pre.length - (n + 1) := by omega
    rw [h1, h2, List.take_left]
  refine ⟨hmain, ?_⟩
  rw [hmain, List.length_drop]
  omega

/-- C1 (witness): instantiating the amended statement at the concrete payload
of the counterexample scenario. -/
theorem C1_witness :
    fetch_data_ftp (["L1", "L2", "L3", "L4", "L5", "L6", "L7", "L8"] ++ ["EOF"]) (some 5) =
        ["L1", "L2", "L3", "L4", "L5", "L6", "L7", "L8"].drop
          (["L1", "L2", "L3", "L4", "L5", "L6", "L7", "L8"].length - (5 + 1)) ∧
      (fetch_data_ftp (["L1", "L2", "L3", "L4", "L5", "L6", "L7", "L8"] ++ ["EOF"])
          (some 5)).length =
        min (5 + 1) ["L1", "L2", "L3", "L4", "L5", "L6", "L7", "L8"].length :=
  C1_theorem ["L1", "L2", "L3", "L4", "L5", "L6", "L7", "L8"] "EOF" 5 (by decide)

/-! ## Helper lemmas for running the simple forecaster -/

theorem tdiv_toNat (x : ℤ) (q : ℕ) : (Int.tdiv x (Int.ofNat q)).toNat = x.toNat / q := by
  cases x with
  | ofNat p => rfl
  | negSucc p =>
    show (-(Int.ofNat ((p + 1) / q))).toNat = 0 / q
    rw [Nat.zero_div]
    exact Int.toNat_neg_nat _

theorem mapM_ok {α β : Type} (f : α → Except PyErr β) (g : α → β) :
    ∀ l : List α, (∀ a ∈ l, f a = .ok (g a)) → l.mapM f = .ok (l.map g) := by
  intro l
  induction l with
  | nil => intro _; rfl
  | cons x xs ih =>
    intro h
    rw [List.mapM_cons, h x (List.mem_cons_self x xs),
      ih (fun a ha => h a (List.mem_cons_of_mem x ha))]
    rfl

theorem strict_times_getD {track : List Pt} (hm : StrictTimes track) {i j : ℕ}
    (hij : i < j) (hj : j < track.length) :
    (track.getD i default).1 < (track.getD j default).1 := by
  haveI : IsTrans Pt (fun p q : Pt => p.1 < q.1) := ⟨fun _ _ _ hab hbc => lt_trans hab hbc⟩
  have hp := List.chain'_iff_pairwise.mp hm
  have h := List.pairwise_iff_getElem.mp hp i j (lt_trans hij hj) hj hij
  rwa [List.getD_eq_getElem track default (lt_trans hij hj),
    List.getD_eq_getElem track default hj]

theorem motion_entry_ok (G : GeoTools) {track : List Pt} (hm : StrictTimes track) (i : ℕ)
    (h1 : 1 ≤ i) (h2 : i + 1 < track.length) :
    motion_entry G track i = .ok (motion_entry_val G track i) := by
  have hd1 : (track.getD i default).1 < (track.getD (i + 1) default).1 :=
    strict_times_getD hm (by omega) h2
  have hd2 : (track.getD (i - 1) default).1 < (track.getD (i + 1) default).1 :=
    strict_times_getD hm (by omega) h2
  simp only [motion_entry, motion_entry_val]
  rw [if_neg (by omega), if_neg (by omega)]

theorem motion_record_ok (G : GeoTools) {track : List Pt} (hm : StrictTimes track) :
    motion_record G track =
      .ok ((List.range (track.length - 2)).map (fun k => motion_entry_val G track (k + 1))) := by
  unfold motion_record
  apply mapM_ok
  intro k hk
  have hk' : k < track.length - 2 := List.mem_range.mp hk
  exact motion_entry_ok G hm (k + 1) (by omega) (by omega)

theorem simple_loop_succ (G : GeoTools) (w d : ℚ) (s : LoopState) (n : ℕ) :
    simple_loop G w d s (n + 1) = simple_step G w d (simple_loop G w d s n) n := by
  simp [simple_loop, List.range_succ]

theorem simple_loop_spec (G : GeoTools) (w d b0 : ℚ) (p0 : ℚ × ℚ) (t0 : ℤ) (m : ℕ) :
    ∀ n : ℕ,
      simple_loop G w d
          ⟨b0, p0, t0, (List.range m).map (fun _ => ((0 : ℤ), (0 : ℚ), (0 : ℚ)))⟩ n =
        ⟨b0 + (n : ℚ) * w, posIter G w d b0 p0 n, t0 + 900 * (n : ℤ),
          (List.range m).map (fun k =>
            if 4 * k + 4 ≤ n then
              (t0 + 900 * ((4 * k + 4 : ℕ) : ℤ),
               (posIter G w d b0 p0 (4 * k + 4)).1, (posIter G w d b0 p0 (4 * k + 4)).2)
            else ((0 : ℤ), (0 : ℚ), (0 : ℚ)))⟩ := by
  intro n
  induction n with
  | zero =>
    simp only [simple_loop, List.range_zero, List.foldl_nil, LoopState.mk.injEq]
    refine ⟨by simp, by simp [posIter], by simp, ?_⟩
    apply List.map_congr_left
    intro k _
    rw [if_neg (by omega)]
  | succ n ih =>
    have hstep : G.update_position (posIter G w d b0 p0 n).1 (posIter G w d b0 p0 n).2
        (b0 + (n : ℚ) * w + w) d = posIter G w d b0 p0 (n + 1) := by
      have harg : b0 + (n : ℚ) * w + w = b0 + ((n + 1 : ℕ) : ℚ) * w := by push_cast; ring
      rw [posIter, ← harg]
    rw [simple_loop_succ, ih]
    simp only [simple_step, LoopState.mk.injEq]
    refine ⟨by push_cast; ring, hstep, by push_cast; ring, ?_⟩
    by_cases hmod : n % 4 = 3
    · rw [if_pos hmod]
      apply List.ext_getElem
      · simp
      · intro j hj1 hj2
        rw [List.getElem_set]
        simp only [List.getElem_map, List.getElem_range]
        by_cases hj : n / 4 = j
        · rw [if_pos hj, if_pos (by omega)]
          have h4 : 4 * j + 4 = n + 1 := by omega
          rw [hstep, h4]
          congr 1
          push_cast
          ring
        · rw [if_neg hj]
          by_cases h4 : 4 * j + 4 ≤ n
          · rw [if_pos h4, if_pos (by omega)]
          · rw [if_neg h4, if_neg (by omega)]
    · rw [if_neg hmod]
      apply List.map_congr_left
      intro k _
      by_cases h4 : 4 * k + 4 ≤ n
      · rw [if_pos h4, if_pos (by omega)]
      · rw [if_neg h4, if_neg (by omega)]

theorem simple_forecast_run (G : GeoTools) (target_time : ℤ) (track : List Pt)
    (h3 : 3 ≤ track.length) (hm : StrictTimes track) (full : Bool) :
    simple_forecast G target_time track full =
      if full then .ok (.fullTrack (hourly_samples G target_time track))
      else
        match (hourly_samples G target_time track).getLast? with
        | none => .error .indexError
        | some p => .ok (.point p) := by
  have h2 : ¬ track.length < 2 := by omega
  have h3' : ¬ track.length < 3 := by omega
  have hmr := motion_record_ok G hm
  have hrep : List.replicate (hourly_len target_time track).toNat ((0 : ℤ), (0 : ℚ), (0 : ℚ)) =
      (List.range (hourly_len target_time track).toNat).map
        (fun _ => ((0 : ℤ), (0 : ℚ), (0 : ℚ))) := by
    simp
  have hdrift : (List.range (hourly_len target_time track).toNat).map (fun k =>
      if 4 * k + 4 ≤ (num_steps target_time track).toNat then
        (last_time track + 900 * ((4 * k + 4 : ℕ) : ℤ),
         (posIter G (w_per_step G track) (d_per_step G track) (last_bearing G track)
           (last_pos track) (4 * k + 4)).1,
         (posIter G (w_per_step G track) (d_per_step G track) (last_bearing G track)
           (last_pos track) (4 * k + 4)).2)
      else ((0 : ℤ), (0 : ℚ), (0 : ℚ))) = hourly_samples G target_time track := by
    unfold hourly_samples
    apply List.map_congr_left
    intro k hk
    have hk' : k < (hourly_len target_time track).toNat := List.mem_range.mp hk
    have hql : (hourly_len target_time track).toNat = (num_steps target_time track).toNat / 4 :=
      tdiv_toNat _ 4
    rw [if_pos (by omega)]
    have h44 : 4 * k + 4 = 4 * (k + 1) := by ring
    rw [h44]
    congr 1
    push_cast
    ring
  unfold simple_forecast
  rw [if_neg h2, hmr]
  simp only [if_neg h3']
  rw [hrep, simple_loop_spec]
  simp only [w_per_step, d_per_step] at hdrift
  rw [hdrift]

theorem tdiv900_toNat (x : ℤ) : (Int.tdiv x 900).toNat = x.toNat / 900 := tdiv_toNat x 900

theorem tdiv4_toNat (x : ℤ) : (Int.tdiv x 4).toNat = x.toNat / 4 := tdiv_toNat x 4

theorem hourly_samples_getD (G : GeoTools) (target_time : ℤ) (track : List Pt) (k : ℕ)
    (hk : k < (hourly_len target_time track).toNat) :
    (hourly_samples G target_time track).getD k default =
      (last_time track + 3600 * ((k : ℤ) + 1),
       (posIter G (w_per_step G track) (d_per_step G track) (last_bearing G track)
         (last_pos track) (4 * (k + 1))).1,
       (posIter G (w_per_step G track) (d_per_step G track) (last_bearing G track)
         (last_pos track) (4 * (k + 1))).2) := by
  have hk' : k < (hourly_samples G target_time track).length := by
    simpa [hourly_samples] using hk
  rw [List.getD_eq_getElem _ _ hk']
  simp [hourly_samples]

theorem getLast?_eq_getD {α : Type} [Inhabited α] (l : List α) (h : 0 < l.length) :
    l.getLast? = some (l.getD (l.length - 1) default) := by
  rw [List.getLast?_eq_getElem?, List.getElem?_eq_getElem (by omega),
    List.getD_eq_getElem _ _ (by omega)]

section ConcreteRatEvaluation

attribute [local semireducible] Rat.add Rat.mul Rat.inv Rat.sub

/-! ## Claims C2, C6, C7, C10 about the simple forecaster -/

/-- C2 (amended): for every track with fewer than 3 points the simple
forecaster fails, but with a generic Python error rather than a dedicated
input-validation error: `np.zeros((len-2, 2))` raises `ValueError` (negative
dimensions) for at most 1 point, and the unassigned `bearing_curr` raises
`UnboundLocalError` for exactly 2 points.  No `ForecastInputError` (or any
input-validation error type) exists in the code. -/
theorem C2_theorem (G : GeoTools) (target_time : ℤ) (track : List Pt) (full : Bool)
    (hlt : track.length < 3) :
    simple_forecast G target_time track full =
      .error (if track.length < 2 then PyErr.valueError else PyErr.unboundLocalError) := by
  by_cases h2 : track.length < 2
  · rw [if_pos h2]
    unfold simple_forecast
    rw [if_pos h2]
  · rw [if_neg h2]
    have hlen2 : track.length = 2 := by omega
    have hmr : motion_record G track = .ok [] := by
      unfold motion_record
      rw [hlen2]
      rfl
    unfold simple_forecast
    rw [if_neg h2, hmr]
    simp only [if_pos hlt]

/-- C2 (counterexample): a 2-point track fails with `UnboundLocalError` and a
1-point (or empty) track with NumPy's `ValueError` — generic, unrelated
errors, not a dedicated input-validation error as the claim states. -/
theorem C2_counterexample :
    simple_forecast G0 3600 [(0, 0, 0), (900, 0, 0)] false = .error .unboundLocalError ∧
      simple_forecast G0 3600 [(0, 0, 0)] true = .error .valueError ∧
      simple_forecast G0 3600 [] false = .error .valueError := by
  refine ⟨by decide, by decide, by decide⟩

/-- C2 (witness): the amended statement instantiated at a concrete 2-point
track. -/
theorem C2_witness :
    simple_forecast G0 7200 [(0, 0, 0), (1800, 0, 0)] true =
      .error (if ([((0 : ℤ), (0 : ℚ), (0 : ℚ)), ((1800 : ℤ), (0 : ℚ), (0 : ℚ))].length < 2)
        then PyErr.valueError else PyErr.unboundLocalError) :=
  C2_theorem G0 7200 [(0, 0, 0), (1800, 0, 0)] true (by decide)

/-- C6: for every geo model, every drift track with at least 3 points and
strictly increasing timestamps, and every target time, the full simple
forecast is a list whose consecutive timestamps differ by exactly 3600
seconds (one hour — one sample per 4 of the 15-minute steps), hence strictly
increasing. -/
theorem C6_theorem (G : GeoTools) (target_time : ℤ) (track : List Pt)
    (h3 : 3 ≤ track.length) (hm : StrictTimes track) :
    ∃ l : List Pt, simple_forecast G target_time track true = .ok (.fullTrack l) ∧
      (∀ k, k + 1 < l.length → (l.getD (k + 1) default).1 = (l.getD k default).1 + 3600) ∧
      (∀ i j, i < j → j < l.length → (l.getD i default).1 < (l.getD j default).1) := by
  refine ⟨hourly_samples G target_time track, ?_, ?_, ?_⟩
  · simpa using simple_forecast_run G target_time track h3 hm true
  · intro k hk
    have hlen : (hourly_samples G target_time track).length =
        (hourly_len target_time track).toNat := by
      simp [hourly_samples]
    have hk1 : k + 1 < (hourly_len target_time track).toNat := by omega
    rw [hourly_samples_getD G target_time track k (by omega),
      hourly_samples_getD G target_time track (k + 1) hk1]
    dsimp only
    push_cast
    ring
  · intro i j hij hj
    have hlen : (hourly_samples G target_time track).length =
        (hourly_len target_time track).toNat := by
      simp [hourly_samples]
    rw [hourly_samples_getD G target_time track i (by omega),
      hourly_samples_getD G target_time track j (by omega)]
    dsimp only
    have hcast : (i : ℤ) < (j : ℤ) := by exact_mod_cast hij
    linarith

/-- C6 (witness): the statement instantiated at a concrete 3-point track with
a 2-hour lead. -/
theorem C6_witness :
    ∃ l : List Pt,
      simple_forecast G0 9000 [(0, 0, 0), (900, 0, 0), (1800, 0, 0)] true =
          .ok (.fullTrack l) ∧
        (∀ k, k + 1 < l.length → (l.getD (k + 1) default).1 = (l.getD k default).1 + 3600) ∧
        (∀ i j, i < j → j < l.length → (l.getD i default).1 < (l.getD j default).1) :=
  C6_theorem G0 9000 [(0, 0, 0), (900, 0, 0), (1800, 0, 0)] (by decide)
    (by simp [List.chain'_cons])

/-- C7 (amended): with at least 3 points, strictly increasing timestamps, and
a lead time of at least one hour, the non-full simple forecast returns the
*last hourly sample* `forecast_drift[-1]`: its timestamp is
`last observation + 3600 · ⌊num_steps/4⌋` and its position is the one reached
after `4 · ⌊num_steps/4⌋` of the 15-minute steps — which is the position after
`num_steps` steps only when `num_steps` is a multiple of 4.  Each step does
rotate the bearing by the average angular velocity times the step length and
then applies the dead-reckoning displacement at the rotated bearing
(`simple_step`/`posIter`). -/
theorem C7_theorem (G : GeoTools) (target_time : ℤ) (track : List Pt)
    (h3 : 3 ≤ track.length) (hm : StrictTimes track)
    (hlead : 3600 ≤ target_time - last_time track) :
    ∃ p : Pt,
      simple_forecast G target_time track false = .ok (.point p) ∧
        (hourly_samples G target_time track).getLast? = some p ∧
        p.1 = last_time track + 3600 * hourly_len target_time track ∧
        p.2 = posIter G (w_per_step G track) (d_per_step G track) (last_bearing G track)
          (last_pos track) (4 * (hourly_len target_time track).toNat) := by
  have hm1 : 1 ≤ (hourly_len target_time track).toNat := by
    unfold hourly_len
    rw [tdiv4_toNat]
    unfold num_steps
    rw [tdiv900_toNat]
    omega
  have hlen : (hourly_samples G target_time track).length =
      (hourly_len target_time track).toNat := by
    simp [hourly_samples]
  have hlast : (hourly_samples G target_time track).getLast? =
      some ((hourly_samples G target_time track).getD
        ((hourly_len target_time track).toNat - 1) default) := by
    have h0 := getLast?_eq_getD (hourly_samples G target_time track) (by omega)
    rw [hlen] at h0
    exact h0
  have hgetD := hourly_samples_getD G target_time track
    ((hourly_len target_time track).toNat - 1) (by omega)
  have hsf : simple_forecast G target_time track false =
      .ok (.point ((hourly_samples G target_time track).getD
        ((hourly_len target_time track).toNat - 1) default)) := by
    rw [simple_forecast_run G target_time track h3 hm false, hlast]
    rfl
  refine ⟨_, hsf, hlast, ?_, ?_⟩
  · rw [hgetD]
    dsimp only
    have hc : (((hourly_len target_time track).toNat - 1 : ℕ) : ℤ) + 1 =
        hourly_len target_time track := by omega
    rw [hc]
  · rw [hgetD]
    dsimp only
    have hi : (hourly_len target_time track).toNat - 1 + 1 =
        (hourly_len target_time track).toNat := by omega
    rw [hi]

/-- C7 (counterexample): with `num_steps = 5` (a 75-minute lead) the non-full
forecast returns the hourly sample recorded after 4 steps — position
`(3600, 0)` under the concrete geo model `G0` — while the position after
`num_steps = 5` steps is `(4500, 0)`: the returned value is not the final
stepped position the claim describes. -/
theorem C7_counterexample :
    simple_forecast G0 6300 [(0, 0, 0), (900, 0, 0), (1800, 0, 0)] false =
        .ok (.point (5400, 3600, 0)) ∧
      num_steps 6300 [(0, 0, 0), (900, 0, 0), (1800, 0, 0)] = 5 ∧
      posIter G0 (w_per_step G0 [(0, 0, 0), (900, 0, 0), (1800, 0, 0)])
          (d_per_step G0 [(0, 0, 0), (900, 0, 0), (1800, 0, 0)])
          (last_bearing G0 [(0, 0, 0), (900, 0, 0), (1800, 0, 0)])
          (last_pos [(0, 0, 0), (900, 0, 0), (1800, 0, 0)]) 5 = (4500, 0) ∧
      ((3600 : ℚ), (0 : ℚ)) ≠ ((4500 : ℚ), (0 : ℚ)) := by
  refine ⟨by decide, by decide, by decide, by decide⟩

/-- C7 (witness): the amended statement instantiated at the 75-minute-lead
scenario. -/
theorem C7_witness :
    ∃ p : Pt,
      simple_forecast G0 6300 [(0, 0, 0), (900, 0, 0), (1800, 0, 0)] false =
          .ok (.point p) ∧
        (hourly_samples G0 6300 [(0, 0, 0), (900, 0, 0), (1800, 0, 0)]).getLast? = some p ∧
        p.1 = last_time [(0, 0, 0), (900, 0, 0), (1800, 0, 0)] +
          3600 * hourly_len 6300 [(0, 0, 0), (900, 0, 0), (1800, 0, 0)] ∧
        p.2 = posIter G0 (w_per_step G0 [(0, 0, 0), (900, 0, 0), (1800, 0, 0)])
          (d_per_step G0 [(0, 0, 0), (900, 0, 0), (1800, 0, 0)])
          (last_bearing G0 [(0, 0, 0), (900, 0, 0), (1800, 0, 0)])
          (last_pos [(0, 0, 0), (900, 0, 0), (1800, 0, 0)])
          (4 * (hourly_len 6300 [(0, 0, 0), (900, 0, 0), (1800, 0, 0)]).toNat) :=
  C7_theorem G0 6300 [(0, 0, 0), (900, 0, 0), (1800, 0, 0)] (by decide)
    (by simp [List.chain'_cons]) (by decide)

/-- C10: with at least 3 points, strictly increasing timestamps, and a target
time less than one hour after the last observed point (fewer than 4 whole
15-minute steps), the non-full simple forecast fails with `IndexError`
(`forecast_drift[-1]` on the empty pre-allocated list) and the full forecast
returns the empty list: no forecast shorter than one hour is produced. -/
theorem C10_theorem (G : GeoTools) (target_time : ℤ) (track : List Pt)
    (h3 : 3 ≤ track.length) (hm : StrictTimes track)
    (hshort : target_time - last_time track < 3600) :
    simple_forecast G target_time track false = .error .indexError ∧
      simple_forecast G target_time track true = .ok (.fullTrack []) := by
  have h1 : (num_steps target_time track).toNat ≤ 3 := by
    unfold num_steps
    rw [tdiv900_toNat]
    omega
  have h2 : (hourly_len target_time track).toNat = 0 := by
    unfold hourly_len
    rw [tdiv4_toNat]
    omega
  have hempty : hourly_samples G target_time track = [] := by
    simp [hourly_samples, h2]
  constructor
  · rw [simple_forecast_run G target_time track h3 hm false, hempty]
    rfl
  · rw [simple_forecast_run G target_time track h3 hm true, hempty]
    rfl

/-- C10 (witness): the statement instantiated at a 59-minute, 59-second
lead. -/
theorem C10_witness :
    simple_forecast G0 5399 [(0, 0, 0), (900, 0, 0), (1800, 0, 0)] false =
        .error .indexError ∧
      simple_forecast G0 5399 [(0, 0, 0), (900, 0, 0), (1800, 0, 0)] true =
        .ok (.fullTrack []) :=
  C10_theorem G0 5399 [(0, 0, 0), (900, 0, 0), (1800, 0, 0)] (by decide)
    (by simp [List.chain'_cons]) (by decide)

end ConcreteRatEvaluation

/-! ## Claims C3 and C4 -/

theorem scan_topaz_valid (cache : List (ℤ × ℤ)) (ds de : ℤ) (force : Bool) :
    ∀ w, (scan_topaz cache ds de force).1 = some w →
      check_existing_topaz w.1 w.2 ds de = true := by
  suffices h : ∀ init : Option (ℤ × ℤ) × List (ℤ × ℤ),
      (∀ w, init.1 = some w → check_existing_topaz w.1 w.2 ds de = true) →
      ∀ w, (cache.foldl
        (fun s w => if check_existing_topaz w.1 w.2 ds de && !force then
          (some w, s.2 ++ [w]) else (s.1, s.2)) init).1 = some w →
        check_existing_topaz w.1 w.2 ds de = true by
    intro w hw
    refine h (none, []) ?_ w hw
    intro w' hw'
    cases hw'
  induction cache with
  | nil =>
    intro init hinit w hw
    exact hinit w hw
  | cons x xs ih =>
    intro init hinit w hw
    rw [List.foldl_cons] at hw
    refine ih _ ?_ w hw
    intro w' hw'
    by_cases hc : (check_existing_topaz x.1 x.2 ds de && !force) = true
    · rw [if_pos hc] at hw'
      have hx : x = w' := by
        simpa using hw'
      rw [← hx]
      exact (Bool.and_eq_true _ _).mp hc |>.1
    · rw [if_neg hc] at hw'
      exact hinit w' hw'

/-- C4 (amended): every window returned by the acquisition phase satisfies
`covered-start ≤ buoy observation time` and `covered-end ≥ target time` —
with the bare target time, not target + 4h: the cache-reuse check
(`check_existing_topaz`) is called without the 4-hour buffer.  Freshly
downloaded windows additionally cover `[buoy time - 24h, target + 28h]` and
hence do satisfy the buffered bound. -/
theorem C4_theorem (cache : List (ℤ × ℤ)) (buoy_time target_time : ℤ) (force_update : Bool) :
    (acquire cache buoy_time target_time force_update).1.1 ≤ buoy_time ∧
      target_time ≤ (acquire cache buoy_time target_time force_update).1.2 := by
  unfold acquire
  rcases hscan : scan_topaz cache buoy_time target_time force_update with ⟨vo, kept⟩
  cases vo with
  | none =>
    simp only [fetch_topaz_forecast]
    constructor <;> dsimp only <;> omega
  | some w =>
    have hv := scan_topaz_valid cache buoy_time target_time force_update w (by rw [hscan])
    simp only [check_existing_topaz, Bool.and_eq_true, decide_eq_true_eq] at hv
    dsimp only
    exact ⟨hv.1, hv.2⟩

/-- C4 (counterexample): a cached window ending exactly at the target time is
reused — `check_existing_topaz` is called with the bare target time — so the
returned window fails to cover target + 4h, contradicting the claimed
invariant. -/
theorem C4_counterexample :
    (acquire [(0, 36000)] 0 36000 false).1 = (0, 36000) ∧
      (acquire [(0, 36000)] 0 36000 false).2.1 = false ∧
      ¬ (36000 + 4 * 3600 : ℤ) ≤ (acquire [(0, 36000)] 0 36000 false).1.2 := by
  refine ⟨by decide, by decide, by decide⟩

/-- C3 (amended): a masked velocity cell never triggers a retry, fresh window
or not: the inner forecast returns `[buoy_position]` normally (the condition
is only logged), so `advanced_forecast` returns the unmodified last-known
position as a degraded single-point result after exactly one acquisition with
its original `force_update` flag.  Only an inner `ValueError` (interpolation
out of bounds) triggers the retry-once-with-forced-refresh path. -/
theorem C3_theorem (run_inner : ℤ × ℤ → InnerOutcome) (cache : List (ℤ × ℤ))
    (buoy : Pt) (target_time : ℤ) (retry force_update : Bool)
    (hmask : run_inner (acquire cache buoy.1 target_time force_update).1 = .masked) :
    advanced_forecast run_inner cache buoy target_time retry force_update =
      ([buoy], [force_update]) := by
  unfold advanced_forecast
  dsimp only
  rw [hmask]

/-- C3 (counterexample): the cache already holds a covering window (so the
acquisition is a reuse, not a fresh download) and the velocity is masked; the
claim demands exactly one retry with a forced refresh, but the call performs a
single non-forced acquisition — the attempt trace is `[false]`, not
`[false, true]` — and returns the degraded single point without retrying. -/
theorem C3_counterexample :
    advanced_forecast (fun _ => InnerOutcome.masked) [(-1000000, 1000000)] (0, 70, -150) 100
        true false = ([(0, 70, -150)], [false]) ∧
      (advanced_forecast (fun _ => InnerOutcome.masked) [(-1000000, 1000000)] (0, 70, -150) 100
        true false).2 ≠ [false, true] := by
  refine ⟨by rfl, by decide⟩

/-- C3 (witness): the amended statement instantiated at the cached-window
masked scenario. -/
theorem C3_witness :
    advanced_forecast (fun _ => InnerOutcome.masked) [(-1000000, 1000000)] (0, 70, -150) 100
        true false = ([((0 : ℤ), (70 : ℚ), (-150 : ℚ))], [false]) :=
  C3_theorem (fun _ => InnerOutcome.masked) [(-1000000, 1000000)] (0, 70, -150) 100 true false
    rfl

section ConcreteRk4Evaluation

attribute [local semireducible] Rat.add Rat.mul Rat.inv Rat.sub

/-- C8 (code-bug evidence): with the velocity field `u(t,x,y) = y`, `v = 0`,
a 0.5-hour step and a 1-hour lead, the source's solver differs from classical
4th-order Runge-Kutta — its u stages perturb the y coordinate by u's own
slope — and its final recorded time is `lead + 0.5` hours (the loop guard is
`tn <= final_step`), not the lead time. -/
theorem C8_theorem :
    rk4 (fun _ _ y => y) (fun _ _ _ => 0) 0 0 1 (1 / 2) 1 false ≠
        rk4_classical (fun _ _ y => y) (fun _ _ _ => 0) 0 0 1 (1 / 2) 1 false ∧
      ((rk4 (fun _ _ y => y) (fun _ _ _ => 0) 0 0 1 (1 / 2) 1 false).getD 0 default).1 =
        3 / 2 ∧
      rk4_step (fun _ _ y => y) (fun _ _ _ => 0) (1 / 2) (0, 0, 1) ≠
        rk4_step_classical (fun _ _ y => y) (fun _ _ _ => 0) (1 / 2) (0, 0, 1) := by
  refine ⟨by decide, by decide, by decide⟩

end ConcreteRk4Evaluation

/-! ## Claim C5 -/

/-- C5 (counterexample): the empty payload — `"".splitlines()` is `[]`, so
`next(lines)` raises `StopIteration` — yields an error, not an empty drift
track; and a line with 3 fields whose values are not numeric literals raises
`ValueError` from `float(...)` instead of being skipped. -/
theorem C5_counterexample :
    parse_data "" 0 1 2 DateFormat.xl none false none = .error .stopIteration ∧
      parse_data "header\na b c\n" 0 1 2 DateFormat.xl none false none =
        .error .valueError := by
  refine ⟨by rfl, by rfl⟩

/-- C5 (amended): only lines with fewer than 3 fields are skipped silently —
a nonempty payload all of whose lines after the first have fewer than 3
fields parses to the empty drift track — but the parser is not total: the
empty payload raises `StopIteration`, and a ≥3-field line with malformed
fields raises `ValueError`/`IndexError` (see the counterexample). -/
theorem C5_theorem (text : String) (t_col lat_col lon_col : ℕ) (date_format : DateFormat)
    (deliminator : Option Char) (reverse : Bool) (y_col : Option ℕ)
    (hne : splitlines text ≠ [])
    (hshort : ∀ line ∈ (splitlines text).tail, (pysplit line deliminator).length < 3) :
    parse_data text t_col lat_col lon_col date_format deliminator reverse y_col = .ok [] := by
  have hloop : ∀ ls : List String, (∀ line ∈ ls, (pysplit line deliminator).length < 3) →
      ∀ tp acc, parse_loop t_col lat_col lon_col date_format deliminator y_col ls tp acc =
        .ok acc := by
    intro ls
    induction ls with
    | nil =>
      intro _ tp acc
      rfl
    | cons x xs ih =>
      intro hall tp acc
      have hx : (pysplit x deliminator).length < 3 := hall x (by simp)
      have hline : parse_line t_col lat_col lon_col date_format deliminator y_col x =
          .ok none := by
        unfold parse_line
        rw [if_pos hx]
      simp only [parse_loop, hline]
      exact ih (fun a ha => hall a (by simp [ha])) tp acc
  unfold parse_data
  cases hsp : splitlines text with
  | nil => exact absurd hsp hne
  | cons l0 rest =>
    have hrest : ∀ line ∈ rest, (pysplit line deliminator).length < 3 := by
      intro a ha
      have := hshort a
      rw [hsp] at this
      exact this (by simpa using ha)
    dsimp only
    rw [hloop rest hrest none []]
    cases reverse <;> rfl

/-- C5 (witness): a payload whose single line after the skipped first one has
only 2 fields parses to the empty track. -/
theorem C5_witness :
    parse_data "junk\nab cd\n" 0 1 2 DateFormat.xl none false none = .ok [] :=
  C5_theorem "junk\nab cd\n" 0 1 2 DateFormat.xl none false none (by decide) (by decide)
